import Mathlib

/-!
Verification of the artifact upload pipeline of the `buildkite-agent artifact
upload` command (src/clicommand/artifact_upload.go).

The command's action (lines 124-197) is embedded as pure functions over a
destination string and abstract outcomes of its collaborators.  Backend
constructors (`NewS3Uploader`, `NewGSUploader`, `NewArtifactoryUploader`) and
`uploader.Upload` live in the agent package, outside the files at hand, so
their results are universally quantified parameters (`Option String`: `some e`
is a returned error).  Components whose code is entirely outside the files at
hand (cliconfig destination precedence, the PathResolver and the
UploadOrchestrator of the agent package) are modelled from the specification;
each such definition says so in its doc comment.
-/

namespace ArtifactUpload

/-- The backend kinds the uploader-selection block can pick: the three
named-destination backends (`S3Uploader` for s3://, `GSUploader` for gs://,
`ArtifactoryUploader` for rt://) and the default `FormUploader`. -/
inductive BackendKind where
  | s3
  | gs
  | rt
  | form
  deriving DecidableEq, Repr

/-- Outcome of the uploader-selection block: either a backend is chosen, or
the destination is rejected with a fatal message. -/
inductive RouteResult where
  | uploader (kind : BackendKind)
  | invalidDestination (message : String)
  deriving DecidableEq, Repr

/-- Go's `strings.HasPrefix s pre`: `s` begins with the literal prefix
`pre` (src/clicommand/artifact_upload.go lines 157, 163, 168). -/
def hasPrefix (s pre : String) : Bool :=
  pre.data.isPrefixOf s.data

/-- The fatal message built at src/clicommand/artifact_upload.go line 174 for
an unrecognized destination: `fmt.Sprintf` with `%v` on the destination
string. -/
def invalidDestinationMessage (destination : String) : String :=
  "Invalid upload destination: '" ++ destination ++
    "'. Only s3://, gs:// or rt:// upload destinations are allowed. Did you forget to surround your artifact upload pattern in double quotes?"

/-- The uploader-selection block of the command's action
(src/clicommand/artifact_upload.go lines 156-184): if the destination is
non-empty it is classified by literal prefix match in source order s3://,
gs://, rt://, and any other non-empty destination is fatal; an empty
destination selects the default form uploader. -/
def selectUploader (destination : String) : RouteResult :=
  if destination ≠ "" then
    if hasPrefix destination "s3://" then .uploader .s3
    else if hasPrefix destination "gs://" then .uploader .gs
    else if hasPrefix destination "rt://" then .uploader .rt
    else .invalidDestination (invalidDestinationMessage destination)
  else .uploader .form

/-- The constructor error observed for the selected backend.  The s3://,
gs:// and rt:// branches each assign `err` from their constructor (lines
158, 164, 169); `NewFormUploader` (line 179) returns no error value at all,
so on the form branch `err` stays nil. -/
def constructorError (kind : BackendKind) (s3Err gsErr rtErr : Option String) :
    Option String :=
  match kind with
  | .s3 => s3Err
  | .gs => gsErr
  | .rt => rtErr
  | .form => none

/-- How one run of the action ends.  Each `fatal` constructor is a call to
`l.Fatal`, which logs the message and exits the process non-zero. -/
inductive ActionOutcome where
  | fatalInvalidDestination (message : String)
  | fatalUploaderConstruction (message : String)
  | fatalUploadFailed (message : String)
  | success (kind : BackendKind)
  deriving DecidableEq, Repr

/-- The command's action after configuration loading
(src/clicommand/artifact_upload.go lines 141-197): select the uploader by
destination prefix (fatal on an unrecognized non-empty destination), check
the constructor error (line 187, fatal with the line 188 message), then run
`uploader.Upload` (line 195, fatal with the line 196 message on error).
`s3Err`, `gsErr`, `rtErr` abstract the backend constructors' results and
`uploadErr` abstracts the result of `uploader.Upload`. -/
def actionRun (destination : String) (s3Err gsErr rtErr uploadErr : Option String) :
    ActionOutcome :=
  match selectUploader destination with
  | .invalidDestination msg => .fatalInvalidDestination msg
  | .uploader kind =>
    match constructorError kind s3Err gsErr rtErr with
    | some e => .fatalUploaderConstruction ("Error creating uploader: " ++ e)
    | none =>
      match uploadErr with
      | some e => .fatalUploadFailed ("Failed to upload artifacts: " ++ e)
      | none => .success kind

/-- Observable effects of one run of the action, in program order.
`createApiClient` is line 141: it builds the client value and performs no
network call.  `constructUploader` is the constructor call of the selected
backend.  `resolveAndUpload` stands for the whole of `uploader.Upload`
(line 195): glob resolution, every orchestration-service API call and every
upload attempt happen only inside it.  `fatalExit` is `l.Fatal`: the process
exits with a non-zero status and nothing after it runs. -/
inductive Effect where
  | createApiClient
  | constructUploader (kind : BackendKind)
  | resolveAndUpload
  | fatalExit (message : String)
  deriving DecidableEq, Repr

/-- The trace of effects of one run of the action
(src/clicommand/artifact_upload.go lines 141-197), with the collaborators
abstracted as in `actionRun`. -/
def actionEffects (destination : String) (s3Err gsErr rtErr uploadErr : Option String) :
    List Effect :=
  Effect.createApiClient ::
    match selectUploader destination with
    | .invalidDestination msg => [Effect.fatalExit msg]
    | .uploader kind =>
      Effect.constructUploader kind ::
        match constructorError kind s3Err gsErr rtErr with
        | some e => [Effect.fatalExit ("Error creating uploader: " ++ e)]
        | none =>
          Effect.resolveAndUpload ::
            match uploadErr with
            | some e => [Effect.fatalExit ("Failed to upload artifacts: " ++ e)]
            | none => []

/-- A trace ends the process with a non-zero status exactly when it contains
a `fatalExit`. -/
def exitsNonZero (effects : List Effect) : Bool :=
  effects.any fun e =>
    match e with
    | .fatalExit _ => true
    | _ => false

/-- Modelled from the spec: the destination precedence applied by
`cliconfig.Load` (the cliconfig package is outside the files at hand) to the
`Destination` field, declared at src/clicommand/artifact_upload.go line 66 as
positional argument 1 with environment fallback
BUILDKITE_ARTIFACT_UPLOAD_DESTINATION: "an explicit destination argument, if
non-empty, is used; otherwise a destination supplied via an external
configuration value is used". -/
def resolveDestination (argDestination envDestination : String) : String :=
  if argDestination ≠ "" then argDestination else envDestination

/-- One file to be uploaded, as resolved from the glob pattern. -/
structure Artifact where
  path : String
  deriving DecidableEq, Repr

/-- Terminal per-artifact states of the upload pipeline. -/
inductive ArtifactState where
  | pending
  | uploading
  | uploaded
  | failed
  deriving DecidableEq, Repr

/-- Overall result of a batch: `succeeded`, or `partiallyFailed` carrying the
failed artifacts with their terminal errors. -/
inductive BatchResult where
  | succeeded
  | partiallyFailed (failures : List (Artifact × String))
  deriving DecidableEq, Repr

/-- Fatal resolution errors of the pipeline. -/
inductive OrchError where
  | noFilesMatched
  deriving DecidableEq, Repr

/-- Network events of one orchestrator run: the batch-registration call and,
per artifact, its upload attempt and the individual status report. -/
inductive OrchEvent where
  | registerBatch
  | uploadAttempt (a : Artifact)
  | updateStatus (a : Artifact) (state : ArtifactState)
  deriving DecidableEq, Repr

/-- Modelled from the spec: PathResolver.Resolve on the already-expanded
match list (the PathResolver lives in the agent package, outside the files at
hand).  "Fails with NoFilesMatchedError if the expansion yields zero files —
this is a hard error, not an empty success." -/
def resolvePattern (matchedFiles : List Artifact) : Except OrchError (List Artifact) :=
  if matchedFiles.isEmpty then .error .noFilesMatched else .ok matchedFiles

/-- Modelled from the spec: the terminal state an artifact reaches once its
retries are exhausted or it succeeds; `outcome a = none` means the upload
succeeded, `some e` that it failed with terminal error `e`. -/
def terminalState (outcome : Artifact → Option String) (a : Artifact) :
    ArtifactState :=
  match outcome a with
  | none => .uploaded
  | some _ => .failed

/-- Modelled from the spec: the final registered state of each artifact of
the batch, in batch order. -/
def batchStates (arts : List Artifact) (outcome : Artifact → Option String) :
    List (Artifact × ArtifactState) :=
  arts.map fun a => (a, terminalState outcome a)

/-- Modelled from the spec: the failed artifacts of the batch paired with
their terminal errors. -/
def batchFailures (arts : List Artifact) (outcome : Artifact → Option String) :
    List (Artifact × String) :=
  arts.filterMap fun a =>
    match outcome a with
    | some e => some (a, e)
    | none => none

/-- Modelled from the spec: "Batch result is succeeded iff every Artifact
reached uploaded; otherwise partially-failed, carrying the list of failed
Artifacts and their terminal errors." -/
def batchResult (arts : List Artifact) (outcome : Artifact → Option String) :
    BatchResult :=
  if (batchFailures arts outcome).isEmpty then .succeeded
  else .partiallyFailed (batchFailures arts outcome)

/-- Modelled from the spec: UploadOrchestrator.Run (the agent package's
ArtifactUploader, outside the files at hand).  Step 1 validates that the
batch has at least one artifact, failing with NoFilesMatchedError before any
network call; then the batch is registered, each artifact is uploaded and its
terminal state reported individually, and the batch result is computed. -/
def orchestratorRun (arts : List Artifact) (outcome : Artifact → Option String) :
    Except OrchError BatchResult × List OrchEvent :=
  if arts.isEmpty then (.error .noFilesMatched, [])
  else
    (.ok (batchResult arts outcome),
     OrchEvent.registerBatch ::
       arts.flatMap fun a =>
         [OrchEvent.uploadAttempt a,
          OrchEvent.updateStatus a (terminalState outcome a)])

/-- Modelled from the spec: the error `uploader.Upload`
(src/clicommand/artifact_upload.go line 195) hands back to the action: nil on
a succeeded batch, and on a partially-failed batch an error naming every
failed artifact, which the action turns into a fatal non-zero exit. -/
def uploadError (result : BatchResult) : Option String :=
  match result with
  | .succeeded => none
  | .partiallyFailed failures =>
      some ("Failed to upload " ++
        String.intercalate ", " (failures.map fun f => f.1.path))

/-- One file found by glob traversal: the chain of path components and
symbolic links by which it was reached, and its resolved absolute path. -/
structure FoundFile where
  chain : List String
  resolved : String
  deriving DecidableEq, Repr

/-- Modelled from the spec: deduplication by resolved absolute path, keeping
the first occurrence of each resolved path; `seen` holds the resolved paths
already kept. -/
def dedupGo (seen : List String) : List FoundFile → List FoundFile
  | [] => []
  | f :: rest =>
    if f.resolved ∈ seen then dedupGo seen rest
    else f :: dedupGo (f.resolved :: seen) rest

/-- Modelled from the spec: PathResolver with followSymlinks = true (the
PathResolver lives in the agent package, outside the files at hand, behind
the follow-symlinks flag of src/clicommand/artifact_upload.go lines 58-62).
Traversal through symlinked directories yields `found`, each file recorded
with the chain through which it was reached, and "the resulting set of files
is deduplicated by resolved absolute path". -/
def resolveFollowingSymlinks (found : List FoundFile) : List FoundFile :=
  dedupGo [] found

theorem dedupGo_countP_of_seen (seen : List String) (xs : List FoundFile)
    (r : String) (h : r ∈ seen) :
    (dedupGo seen xs).countP (fun g => g.resolved == r) = 0 := by
  induction xs generalizing seen with
  | nil => simp [dedupGo]
  | cons f rest ih =>
    by_cases hf : f.resolved ∈ seen
    · simpa [dedupGo, hf] using ih seen h
    · have hne : (f.resolved == r) = false := by
        simp only [beq_eq_false_iff_ne, ne_eq]
        intro hEq
        exact hf (hEq ▸ h)
      simp [dedupGo, hf, List.countP_cons, hne,
        ih (f.resolved :: seen) (List.mem_cons_of_mem _ h)]

theorem dedupGo_countP_of_not_seen (seen : List String) (xs : List FoundFile)
    (r : String) (hseen : r ∉ seen) (hex : ∃ f ∈ xs, f.resolved = r) :
    (dedupGo seen xs).countP (fun g => g.resolved == r) = 1 := by
  induction xs generalizing seen with
  | nil =>
    rcases hex with ⟨f, hf, _⟩
    cases hf
  | cons f rest ih =>
    by_cases hf : f.resolved ∈ seen
    · rcases hex with ⟨g, hg, hgr⟩
      rcases List.mem_cons.mp hg with hgf | hgrest
      · exact absurd (hgr ▸ hgf ▸ hf) hseen
      · simpa [dedupGo, hf] using ih seen hseen ⟨g, hgrest, hgr⟩
    · by_cases hfr : f.resolved = r
      · subst hfr
        simp [dedupGo, hf, List.countP_cons,
          dedupGo_countP_of_seen (f.resolved :: seen) rest f.resolved (by simp)]
      · have hr : r ∉ f.resolved :: seen := by
          simp only [List.mem_cons]
          rintro (hEq | hIn)

          · exact hfr hEq.symm
          · exact hseen hIn
        rcases hex with ⟨g, hg, hgr⟩
        rcases List.mem_cons.mp hg with hgf | hgrest
        · exact absurd (hgf ▸ hgr) hfr
        · have hne : (f.resolved == r) = false := by
            simp only [beq_eq_false_iff_ne, ne_eq]
            exact hfr
          simp [dedupGo, hf, List.countP_cons, hne,
            ih (f.resolved :: seen) hr ⟨g, hgrest, hgr⟩]

theorem batchFailures_eq_nil_iff (arts : List Artifact)
    (outcome : Artifact → Option String) :
    batchFailures arts outcome = [] ↔ ∀ a ∈ arts, outcome a = none := by
  rw [batchFailures, List.filterMap_eq_nil_iff]
  constructor
  · intro h a ha
    have h2 := h a ha
    cases hoa : outcome a with
    | none => rfl
    | some e => rw [hoa] at h2; simp at h2
  · intro h a ha
    rw [h a ha]

/-- C1: for every non-empty destination string, the backend is selected by
literal prefix match checked in the fixed source order s3:// (S3Uploader),
then gs:// (GSUploader), then rt:// (ArtifactoryUploader); the first matching
prefix wins, and a destination matching none of the three is rejected rather
than matched by any fallback pattern. -/
theorem routing_prefix_fixed_order (d : String) (hne : d ≠ "") :
    (hasPrefix d "s3://" = true → selectUploader d = .uploader .s3)
    ∧ (hasPrefix d "s3://" = false → hasPrefix d "gs://" = true →
        selectUploader d = .uploader .gs)
    ∧ (hasPrefix d "s3://" = false → hasPrefix d "gs://" = false →
        hasPrefix d "rt://" = true → selectUploader d = .uploader .rt)
    ∧ (hasPrefix d "s3://" = false → hasPrefix d "gs://" = false →
        hasPrefix d "rt://" = false →
        selectUploader d = .invalidDestination (invalidDestinationMessage d)) := by
  refine ⟨?_, ?_, ?_, ?_⟩ <;> intros <;> simp_all [selectUploader]

theorem routing_prefix_fixed_order_witness :
    selectUploader "s3://bucket/key" = .uploader .s3
    ∧ selectUploader "gs://bucket/key" = .uploader .gs
    ∧ selectUploader "rt://repo/key" = .uploader .rt :=
  ⟨(routing_prefix_fixed_order "s3://bucket/key" (by decide)).1 (by decide),
   (routing_prefix_fixed_order "gs://bucket/key" (by decide)).2.1 (by decide) (by decide),
   (routing_prefix_fixed_order "rt://repo/key" (by decide)).2.2.1 (by decide) (by decide)
     (by decide)⟩

/-- C2: every non-empty destination starting with none of s3://, gs://, rt://
is routed to the fatal invalid-destination outcome, and the fatal message
names the offending destination string and hints that unquoted glob expansion
(a pattern not surrounded by double quotes) is a likely cause. -/
theorem invalid_destination_named_in_error (d : String) (hne : d ≠ "")
    (hs3 : hasPrefix d "s3://" = false) (hgs : hasPrefix d "gs://" = false)
    (hrt : hasPrefix d "rt://" = false) :
    selectUploader d = .invalidDestination (invalidDestinationMessage d)
    ∧ invalidDestinationMessage d =
        "Invalid upload destination: '" ++ d ++
          "'. Only s3://, gs:// or rt:// upload destinations are allowed. Did you forget to surround your artifact upload pattern in double quotes?" := by
  constructor
  · simp [selectUploader, hne, hs3, hgs, hrt]
  · rfl

theorem invalid_destination_named_in_error_witness :
    selectUploader "ftp://host/path" =
      .invalidDestination (invalidDestinationMessage "ftp://host/path")
    ∧ invalidDestinationMessage "ftp://host/path" =
        "Invalid upload destination: 'ftp://host/path'. Only s3://, gs:// or rt:// upload destinations are allowed. Did you forget to surround your artifact upload pattern in double quotes?" :=
  ⟨(invalid_destination_named_in_error "ftp://host/path" (by decide) (by decide)
      (by decide) (by decide)).1,
   (invalid_destination_named_in_error "ftp://host/path" (by decide) (by decide)
      (by decide) (by decide)).2⟩

/-- C3: on an invalid (non-empty, unrecognized-prefix) destination, the run's
whole trace is the client construction followed by a single fatal exit: no
glob resolution, no upload attempt and no orchestration-service API call (all
of which happen only inside the `resolveAndUpload` effect) occurs, no backend
uploader is constructed, and the process exits non-zero. -/
theorem invalid_destination_aborts_before_work (d : String) (hne : d ≠ "")
    (hs3 : hasPrefix d "s3://" = false) (hgs : hasPrefix d "gs://" = false)
    (hrt : hasPrefix d "rt://" = false)
    (s3Err gsErr rtErr uploadErr : Option String) :
    actionEffects d s3Err gsErr rtErr uploadErr =
      [Effect.createApiClient, Effect.fatalExit (invalidDestinationMessage d)]
    ∧ Effect.resolveAndUpload ∉ actionEffects d s3Err gsErr rtErr uploadErr
    ∧ (∀ kind, Effect.constructUploader kind ∉ actionEffects d s3Err gsErr rtErr uploadErr)
    ∧ exitsNonZero (actionEffects d s3Err gsErr rtErr uploadErr) = true := by
  have h : actionEffects d s3Err gsErr rtErr uploadErr =
      [Effect.createApiClient, Effect.fatalExit (invalidDestinationMessage d)] := by
    simp [actionEffects, selectUploader, hne, hs3, hgs, hrt]
  refine ⟨h, ?_, ?_, ?_⟩
  · simp [h]
  · simp [h]
  · simp [h, exitsNonZero]

theorem invalid_destination_aborts_before_work_witness :
    actionEffects "ftp://host/path" none none none none =
      [Effect.createApiClient,
       Effect.fatalExit (invalidDestinationMessage "ftp://host/path")]
    ∧ Effect.resolveAndUpload ∉ actionEffects "ftp://host/path" none none none none
    ∧ (∀ kind, Effect.constructUploader kind ∉
        actionEffects "ftp://host/path" none none none none)
    ∧ exitsNonZero (actionEffects "ftp://host/path" none none none none) = true :=
  invalid_destination_aborts_before_work "ftp://host/path" (by decide) (by decide)
    (by decide) (by decide) none none none none

/-- C4: when both the explicit destination argument and the environment-
supplied destination are empty, the resolved destination is empty, the
default form uploader is selected, the run constructs it, and a successful
upload ends in success with the form backend regardless of any error the
three credentialed backend constructors might have produced (none of them is
consulted, so no backend-specific credentials are required). -/
theorem empty_destination_uses_form_uploader (s3Err gsErr rtErr : Option String) :
    resolveDestination "" "" = ""
    ∧ selectUploader "" = .uploader .form
    ∧ actionRun "" s3Err gsErr rtErr none = .success .form
    ∧ Effect.constructUploader .form ∈ actionEffects "" s3Err gsErr rtErr none := by
  refine ⟨rfl, rfl, ?_, ?_⟩
  · simp [actionRun, selectUploader, constructorError]
  · simp [actionEffects, selectUploader, constructorError]

/-- C5: whenever the constructor of the backend selected for the destination
returns an error, the run ends in the uploader-construction fatal outcome
carrying that error, and its trace contains no `resolveAndUpload` effect: the
whole batch is aborted before glob resolution, before any upload attempt and
before any per-artifact work, and the process exits non-zero. -/
theorem construction_failure_aborts_batch (d : String) (kind : BackendKind)
    (s3Err gsErr rtErr uploadErr : Option String) (e : String)
    (hsel : selectUploader d = .uploader kind)
    (herr : constructorError kind s3Err gsErr rtErr = some e) :
    actionRun d s3Err gsErr rtErr uploadErr =
      .fatalUploaderConstruction ("Error creating uploader: " ++ e)
    ∧ Effect.resolveAndUpload ∉ actionEffects d s3Err gsErr rtErr uploadErr
    ∧ exitsNonZero (actionEffects d s3Err gsErr rtErr uploadErr) = true := by
  refine ⟨?_, ?_, ?_⟩
  · simp [actionRun, hsel, herr]
  · simp [actionEffects, hsel, herr]
  · simp [actionEffects, hsel, herr, exitsNonZero]

theorem construction_failure_aborts_batch_witness :
    actionRun "s3://bucket/key" (some "missing credentials") none none none =
      .fatalUploaderConstruction ("Error creating uploader: " ++ "missing credentials")
    ∧ Effect.resolveAndUpload ∉
        actionEffects "s3://bucket/key" (some "missing credentials") none none none
    ∧ exitsNonZero
        (actionEffects "s3://bucket/key" (some "missing credentials") none none none)
        = true :=
  construction_failure_aborts_batch "s3://bucket/key" .s3
    (some "missing credentials") none none none "missing credentials" rfl rfl

/-- C9: whenever both the explicit destination argument and the
environment-supplied destination are non-empty, the explicit argument is the
resolved destination, so backend classification behaves exactly as it does on
the explicit argument alone: the argument always overrides the environment
value. -/
theorem explicit_argument_overrides_env (argDestination envDestination : String)
    (harg : argDestination ≠ "") (henv : envDestination ≠ "") :
    resolveDestination argDestination envDestination = argDestination
    ∧ selectUploader (resolveDestination argDestination envDestination) =
        selectUploader argDestination := by
  have h : resolveDestination argDestination envDestination = argDestination := by
    simp [resolveDestination, harg]
  exact ⟨h, by rw [h]⟩

theorem explicit_argument_overrides_env_witness :
    resolveDestination "s3://explicit/arg" "gs://from-env" = "s3://explicit/arg"
    ∧ selectUploader (resolveDestination "s3://explicit/arg" "gs://from-env") =
        selectUploader "s3://explicit/arg" :=
  explicit_argument_overrides_env "s3://explicit/arg" "gs://from-env"
    (by decide) (by decide)

/-- C10: on the empty-destination path the form uploader's constructor
returns no error value, so the uploader-construction fatal branch is
unreachable: whatever the three credentialed constructors would have
returned and whatever `uploader.Upload` returns, the run's outcome is never
a construction failure. -/
theorem empty_destination_construction_cannot_fail
    (s3Err gsErr rtErr uploadErr : Option String) (msg : String) :
    actionRun "" s3Err gsErr rtErr uploadErr ≠ .fatalUploaderConstruction msg := by
  cases uploadErr <;> simp [actionRun, selectUploader, constructorError]

/-- C6: a glob expansion yielding zero files is a hard error, never an empty
success: resolution returns NoFilesMatchedError, no success value is
possible, and the orchestrator run produces no network event — in particular
no batch-registration call — before this error is surfaced. -/
theorem zero_matches_hard_error (matchedFiles : List Artifact)
    (outcome : Artifact → Option String) (h : matchedFiles = []) :
    resolvePattern matchedFiles = .error .noFilesMatched
    ∧ (∀ arts, resolvePattern matchedFiles ≠ .ok arts)
    ∧ orchestratorRun matchedFiles outcome = (.error .noFilesMatched, [])
    ∧ OrchEvent.registerBatch ∉ (orchestratorRun matchedFiles outcome).2 := by
  subst h
  refine ⟨rfl, ?_, rfl, ?_⟩
  · intro arts
    simp [resolvePattern]
  · simp [orchestratorRun]

theorem zero_matches_hard_error_witness :
    resolvePattern [] = .error .noFilesMatched
    ∧ (∀ arts, resolvePattern [] ≠ .ok arts)
    ∧ orchestratorRun [] (fun _ => none) = (.error .noFilesMatched, [])
    ∧ OrchEvent.registerBatch ∉ (orchestratorRun [] (fun _ => none)).2 :=
  zero_matches_hard_error [] (fun _ => none) rfl

/-- C7: for every non-empty batch the orchestrator returns the batch result,
which is succeeded exactly when every artifact's registered terminal state is
uploaded; otherwise it is partially-failed carrying precisely the failed
artifacts with their terminal errors; every artifact that uploaded
successfully stays registered as uploaded and no status report ever differs
from the artifact's terminal state (no rollback); and a batch that did not
succeed makes `uploader.Upload` return an error, which the CLI action turns
into a fatal non-zero exit. -/
theorem batch_result_succeeded_iff_all_uploaded (arts : List Artifact)
    (outcome : Artifact → Option String) (hne : arts ≠ []) :
    (orchestratorRun arts outcome).1 = .ok (batchResult arts outcome)
    ∧ (batchResult arts outcome = .succeeded ↔
        ∀ p ∈ batchStates arts outcome, p.2 = ArtifactState.uploaded)
    ∧ (batchResult arts outcome ≠ .succeeded →
        batchResult arts outcome = .partiallyFailed (batchFailures arts outcome))
    ∧ (∀ a e, (a, e) ∈ batchFailures arts outcome ↔ a ∈ arts ∧ outcome a = some e)
    ∧ (∀ a ∈ arts, outcome a = none →
        (a, ArtifactState.uploaded) ∈ batchStates arts outcome
        ∧ OrchEvent.updateStatus a ArtifactState.uploaded ∈
            (orchestratorRun arts outcome).2)
    ∧ (∀ a s, OrchEvent.updateStatus a s ∈ (orchestratorRun arts outcome).2 →
        s = terminalState outcome a)
    ∧ (batchResult arts outcome ≠ .succeeded →
        exitsNonZero (actionEffects "" none none none
          (uploadError (batchResult arts outcome))) = true) := by
  have hEmpty : arts.isEmpty = false := by
    simp [List.isEmpty_iff, hne]
  refine ⟨?_, ?_, ?_, ?_, ?_, ?_, ?_⟩
  · simp [orchestratorRun, hEmpty]
  · rw [batchResult]
    by_cases hF : (batchFailures arts outcome).isEmpty
    · have hnil : batchFailures arts outcome = [] := List.isEmpty_iff.mp hF
      have hall := (batchFailures_eq_nil_iff arts outcome).mp hnil
      simp only [hF, if_true, true_iff]
      intro p hp
      rw [batchStates] at hp
      rcases List.mem_map.mp hp with ⟨a, ha, rfl⟩
      simp [terminalState, hall a ha]
    · rw [if_neg hF]
      constructor
      · intro h
        simp at h
      · intro hall
        exfalso
        apply hF
        rw [List.isEmpty_iff, batchFailures_eq_nil_iff]
        intro a ha
        have hmem := hall (a, terminalState outcome a)
          (by rw [batchStates]; exact List.mem_map.mpr ⟨a, ha, rfl⟩)
        revert hmem
        cases hoa : outcome a <;> simp [terminalState, hoa]
  · intro hns
    rw [batchResult] at hns ⊢
    by_cases hF : (batchFailures arts outcome).isEmpty
    · simp [hF] at hns
    · simp [hF]
  · intro a e
    rw [batchFailures]
    rw [List.mem_filterMap]
    constructor
    · rintro ⟨b, hb, hsome⟩
      revert hsome
      cases hob : outcome b <;> simp
      rintro rfl rfl
      exact ⟨hb, hob⟩
    · rintro ⟨ha, hoa⟩
      exact ⟨a, ha, by rw [hoa]⟩
  · intro a ha hoa
    constructor
    · rw [batchStates]
      exact List.mem_map.mpr ⟨a, ha, by rw [terminalState, hoa]⟩
    · rw [orchestratorRun]
      simp only [hEmpty, Bool.false_eq_true, if_false, List.mem_cons]
      right
      rw [List.mem_flatMap]
      exact ⟨a, ha, by rw [terminalState, hoa]; simp⟩
  · intro a s hmem
    rw [orchestratorRun] at hmem
    simp only [hEmpty, Bool.false_eq_true, if_false, List.mem_cons] at hmem
    rcases hmem with hreg | hflat
    · cases hreg
    · rcases List.mem_flatMap.mp hflat with ⟨b, _, hb⟩
      simp only [List.mem_cons, List.mem_singleton] at hb
      rcases hb with hb | hb | hb
      · cases hb
      · cases hb
        rfl
      · cases hb
  · intro hns
    rcases hresult : batchResult arts outcome with _ | failures
    · exact absurd hresult hns
    · simp [uploadError, actionEffects, selectUploader, constructorError,
        exitsNonZero]

theorem batch_result_succeeded_iff_all_uploaded_witness :
    (orchestratorRun [Artifact.mk "log/a.log", Artifact.mk "log/b.log"]
        (fun a => if a.path = "log/b.log" then some "503 from backend" else none)).1 =
      .ok (batchResult [Artifact.mk "log/a.log", Artifact.mk "log/b.log"]
        (fun a => if a.path = "log/b.log" then some "503 from backend" else none))
    ∧ (batchResult [Artifact.mk "log/a.log", Artifact.mk "log/b.log"]
        (fun a => if a.path = "log/b.log" then some "503 from backend" else none) =
          .succeeded ↔
        ∀ p ∈ batchStates [Artifact.mk "log/a.log", Artifact.mk "log/b.log"]
          (fun a => if a.path = "log/b.log" then some "503 from backend" else none),
          p.2 = ArtifactState.uploaded)
    ∧ (batchResult [Artifact.mk "log/a.log", Artifact.mk "log/b.log"]
        (fun a => if a.path = "log/b.log" then some "503 from backend" else none) ≠
          .succeeded →
        batchResult [Artifact.mk "log/a.log", Artifact.mk "log/b.log"]
          (fun a => if a.path = "log/b.log" then some "503 from backend" else none) =
        .partiallyFailed (batchFailures
          [Artifact.mk "log/a.log", Artifact.mk "log/b.log"]
          (fun a => if a.path = "log/b.log" then some "503 from backend" else none)))
    ∧ (∀ a e, (a, e) ∈ batchFailures
        [Artifact.mk "log/a.log", Artifact.mk "log/b.log"]
        (fun a => if a.path = "log/b.log" then some "503 from backend" else none) ↔
        a ∈ [Artifact.mk "log/a.log", Artifact.mk "log/b.log"] ∧
        (if a.path = "log/b.log" then some "503 from backend" else none) = some e)
    ∧ (∀ a ∈ [Artifact.mk "log/a.log", Artifact.mk "log/b.log"],
        (if a.path = "log/b.log" then some "503 from backend" else none) = none →
        (a, ArtifactState.uploaded) ∈ batchStates
          [Artifact.mk "log/a.log", Artifact.mk "log/b.log"]
          (fun a => if a.path = "log/b.log" then some "503 from backend" else none)
        ∧ OrchEvent.updateStatus a ArtifactState.uploaded ∈
            (orchestratorRun [Artifact.mk "log/a.log", Artifact.mk "log/b.log"]
              (fun a => if a.path = "log/b.log" then some "503 from backend"
                else none)).2)
    ∧ (∀ a s, OrchEvent.updateStatus a s ∈
        (orchestratorRun [Artifact.mk "log/a.log", Artifact.mk "log/b.log"]
          (fun a => if a.path = "log/b.log" then some "503 from backend"
            else none)).2 →
        s = terminalState
          (fun a => if a.path = "log/b.log" then some "503 from backend" else none) a)
    ∧ (batchResult [Artifact.mk "log/a.log", Artifact.mk "log/b.log"]
        (fun a => if a.path = "log/b.log" then some "503 from backend" else none) ≠
          .succeeded →
        exitsNonZero (actionEffects "" none none none
          (uploadError (batchResult
            [Artifact.mk "log/a.log", Artifact.mk "log/b.log"]
            (fun a => if a.path = "log/b.log" then some "503 from backend"
              else none)))) = true) :=
  batch_result_succeeded_iff_all_uploaded
    [Artifact.mk "log/a.log", Artifact.mk "log/b.log"]
    (fun a => if a.path = "log/b.log" then some "503 from backend" else none)
    (by simp)

/-- C8: with followSymlinks = true, a file reachable via two distinct
symlink chains — two entries of the traversal with different chains but the
same resolved absolute path — appears exactly once in the resolved batch:
deduplication is by resolved absolute path. -/
theorem symlink_chains_dedup_exactly_once (found : List FoundFile)
    (f₁ f₂ : FoundFile) (h₁ : f₁ ∈ found) (h₂ : f₂ ∈ found)
    (hchain : f₁.chain ≠ f₂.chain) (hres : f₁.resolved = f₂.resolved) :
    (resolveFollowingSymlinks found).countP
      (fun g => g.resolved == f₁.resolved) = 1 :=
  dedupGo_countP_of_not_seen [] found f₁.resolved (by simp) ⟨f₁, h₁, rfl⟩

theorem symlink_chains_dedup_exactly_once_witness :
    (resolveFollowingSymlinks
        [FoundFile.mk ["artifacts", "linkA", "out.bin"] "/build/out.bin",
         FoundFile.mk ["artifacts", "linkB", "out.bin"] "/build/out.bin"]).countP
      (fun g => g.resolved ==
        (FoundFile.mk ["artifacts", "linkA", "out.bin"] "/build/out.bin").resolved)
      = 1 :=
  symlink_chains_dedup_exactly_once
    [FoundFile.mk ["artifacts", "linkA", "out.bin"] "/build/out.bin",
     FoundFile.mk ["artifacts", "linkB", "out.bin"] "/build/out.bin"]
    (FoundFile.mk ["artifacts", "linkA", "out.bin"] "/build/out.bin")
    (FoundFile.mk ["artifacts", "linkB", "out.bin"] "/build/out.bin")
    (by simp) (by simp) (by decide) rfl

end ArtifactUpload
